import Mathlib

/-!
Shallow embedding of the graph-assembly core of fmriprep
(`src/fmriprep/workflows/base.py` and `src/fmriprep/workflows/bold/fit.py`).

External collaborators (the BIDS layout, sdcflows `find_estimators`,
`get_estimator`, the nipype engine, configuration) are modelled as
parameters; everything the claims quantify over is translated from the
source, line by line.
-/

namespace FMRIPrep

/-! ## Estimator data model (`sdcflows.fieldmaps`, consumed by `base.py`) -/

/-- Estimation method of a fieldmap estimator (`sdcflows.fieldmaps.EstimatorType`). -/
inductive EstimatorType where
  | MAPPED
  | PHASEDIFF
  | PEPOLAR
  | ANAT
deriving DecidableEq, Repr

/-- A discovered fieldmap estimator: the two attributes `base.py` reads
(`bids_id` and `method`). -/
structure Estimator where
  bids_id : String
  method : EstimatorType
deriving DecidableEq, Repr

/-- The `use_syn` configuration value: Python `bool | str`, where the string
`"error"` is the escalating setting.  `off` is falsy; `on` and `error` are truthy. -/
inductive UseSyn where
  | off
  | on
  | error
deriving DecidableEq, Repr

/-- Python truthiness of the `use_syn` flag (`bool(use_syn)`). -/
def UseSyn.toBool : UseSyn → Bool
  | .off => false
  | .on => true
  | .error => true

/-- The warning logged at `base.py:950-953` when several fieldmaps are
`IntendedFor` one BOLD file: it names the file, every candidate, and the
chosen (first) candidate. -/
structure ResolutionWarning where
  bold_file : String
  candidates : List String
  chosen : String
deriving DecidableEq, Repr

/-- `base.py:931-936`: if fieldmaps are ignored but ANAT (fieldmap-less)
estimators exist, keep only the ANAT estimators. -/
def effectiveEstimators (fmap_estimators : List Estimator) (ignore_fieldmaps : Bool) :
    List Estimator :=
  if ignore_fieldmaps && fmap_estimators.any (fun f => f.method = .ANAT) then
    fmap_estimators.filter (fun f => f.method = .ANAT)
  else
    fmap_estimators

/-- `base.py:944`: candidates declared for one BOLD file, filtered to the
identifiers of currently-known estimators (`fmap_id in all_ids`). -/
def candidateKeys (get_estimator : String → List String) (all_ids : List String)
    (bold_file : String) : List String :=
  (get_estimator bold_file).filter (fun fmap_id => all_ids.contains fmap_id)

/-- Shallow embedding of `map_fieldmap_estimation` (`base.py:892-965`).

The external collaborators are parameters:
* `get_estimator` stands for `sdcflows.utils.epimanip.get_estimator(layout, bold_file)`;
* `fmap_estimators` is the result of `sdcflows.utils.wrangler.find_estimators`
  (estimator discovery, performed outside this repository).

`bold_data` is the list of BOLD series; `base.py:941` takes the first file of
each series (`listify(bold_file)[0]`).  The result is the pruned estimator
list, the series→estimator map (an association list in insertion order,
standing for the Python dict), and the list of emitted resolution warnings;
`Except.error` models the `ValueError` raised at `base.py:928`. -/
def map_fieldmap_estimation
    (get_estimator : String → List String)
    (fmap_estimators : List Estimator)
    (bold_data : List (List String))
    (ignore_fieldmaps : Bool)
    (use_syn : UseSyn)
    (force_syn : Bool) :
    Except String (List Estimator × List (String × String) × List ResolutionWarning) :=
  -- base.py:901-902
  if !(!ignore_fieldmaps || use_syn.toBool || force_syn) then
    .ok ([], [], [])
  else if fmap_estimators.isEmpty then
    -- base.py:920-929
    if use_syn = .error then
      .error "Fieldmap-less (SyN) estimation was requested, but PhaseEncodingDirection information appears to be absent."
    else
      .ok ([], [], [])
  else
    -- base.py:931-936
    let fmap_estimators' := effectiveEstimators fmap_estimators ignore_fieldmaps
    -- base.py:940-946
    let all_ids := fmap_estimators'.map (fun fmap => fmap.bids_id)
    let bold_files := bold_data.filterMap List.head?
    let all_estimators :=
      bold_files.map (fun bold_file =>
        (bold_file, candidateKeys get_estimator all_ids bold_file))
    -- base.py:948-954: warn and truncate when several candidates remain
    let warnings := all_estimators.filterMap (fun p =>
      if p.2.length > 1 then some ⟨p.1, p.2, p.2.headD ""⟩ else none)
    let truncated := all_estimators.map (fun p => (p.1, p.2.take 1))
    -- base.py:956-961: final 1-1 map, dropping uncorrected BOLD
    let estimator_map := truncated.filterMap (fun p =>
      p.2.head?.map (fun k => (p.1, k)))
    -- base.py:963
    let pruned := fmap_estimators'.filter (fun f =>
      estimator_map.any (fun p => p.2 = f.bids_id))
    .ok (pruned, estimator_map, warnings)

/-! ## Workflow graph model

`fit.py` builds nipype workflows by `workflow.connect` (directed port-to-port
edges), `workflow.add_nodes` (explicitly added nodes) and `node.inputs.x = v`
(static input values).  A graph is the record of those three calls; a node is
in the graph when it was added explicitly or appears at either end of an edge.
Sub-workflows built by external factories are single opaque nodes whose ports
are the dotted `inputnode.x` / `outputnode.x` names used in the connect calls. -/

/-- A value statically assigned to a node input (`node.inputs.port = v`):
either one artifact reference (a path) or a list of them. -/
inductive Value where
  | file (path : String)
  | files (paths : List String)
deriving DecidableEq, Repr

/-- One `workflow.connect` entry: source node/port to destination node/port. -/
structure Edge where
  src : String
  srcPort : String
  dst : String
  dstPort : String
deriving DecidableEq, Repr

/-- The assembled workflow graph. -/
structure Graph where
  explicitNodes : List String
  edges : List Edge
  inputs : List (String × String × Value)
deriving DecidableEq, Repr

/-- Nodes present in the graph: explicitly added ones plus every endpoint of
an edge (nipype adds nodes implicitly on `connect`). -/
def Graph.nodes (g : Graph) : List String :=
  g.explicitNodes ++ g.edges.map Edge.src ++ g.edges.map Edge.dst

/-- What a node input port resolves to: a statically wired (cached) value, or
the output port of a producing stage. -/
inductive Source where
  | cached (v : Value)
  | produced (node : String) (port : String)
deriving DecidableEq, Repr

/-- Static value assigned to a port, if any. -/
def Graph.findInput (g : Graph) (n p : String) : Option Value :=
  (g.inputs.find? (fun t => t.1 == n && t.2.1 == p)).map (fun t => t.2.2)

/-- Edge feeding a port, if any. -/
def Graph.findEdgeInto (g : Graph) (n p : String) : Option Edge :=
  g.edges.find? (fun e => e.dst == n && e.dstPort == p)

/-- Trace a port back through identity buffers to its source: a static
(cached) value, or the producing stage's output port.  Fuel bounds the
recursion; the graphs built here have wiring depth well below 8. -/
def Graph.resolve (g : Graph) : Nat → String → String → Source
  | 0, n, p => .produced n p
  | fuel + 1, n, p =>
    match g.findInput n p with
    | some v => .cached v
    | none =>
      match g.findEdgeInto n p with
      | some e => g.resolve fuel e.src e.srcPort
      | none => .produced n p

/-- Resolution of a graph-level output port (a field of `outputnode`). -/
def Graph.resolveOutput (g : Graph) (port : String) : Source :=
  g.resolve 8 "outputnode" port

/-! ## `init_bold_fit_wf` (`fit.py:94-589`) -/

/-- The `precomputed` dictionary of `init_bold_fit_wf` (`fit.py:223-232`):
the four slot lookups plus the nested `transforms` entries.  `some a` models a
present (truthy) cached artifact reference `a`. -/
structure Precomputed where
  hmc_boldref : Option String
  coreg_boldref : Option String
  hmc : Option String
  boldref2fmap : Option String
  boldref2anat : Option String
deriving DecidableEq, Repr

/-- `sorted(files, key=EchoTime)` (`fit.py:88-91` and `fit.py:202`): sort file
paths by ascending echo time.  Each query result is a `(path, echo time)` pair;
Python's `sorted` is stable, as is `List.insertionSort` with a `≤` relation. -/
def sortByEchoTime (query : List (String × Nat)) : List String :=
  (query.insertionSort (fun a b => a.2 ≤ b.2)).map Prod.fst

/-- `get_sbrefs` (`fit.py:62-91`): the layout query for associated single-band
references is external; its result (paths with echo times) is the parameter,
and the function returns the paths sorted by ascending echo time. -/
def get_sbrefs (query : List (String × Nat)) : List String :=
  sortByEchoTime query

/-- `_select_ref` (`fit.py:875-880`): select the first sbref, or the first
boldref when no sbref is available (`sbref_files or boldref_files`). -/
def _select_ref (sbref_files boldref_files : List String) : Option String :=
  (if sbref_files.isEmpty then boldref_files else sbref_files).head?

/-- Unconditional connections of `init_bold_fit_wf` (`fit.py:314-338`). -/
def fitBaseEdges : List Edge :=
  [ ⟨"hmcref_buffer", "boldref", "outputnode", "hmc_boldref"⟩,
    ⟨"regref_buffer", "boldref", "outputnode", "coreg_boldref"⟩,
    ⟨"regref_buffer", "boldmask", "outputnode", "bold_mask"⟩,
    ⟨"fmapreg_buffer", "boldref2fmap_xfm", "outputnode", "boldref2fmap_xfm"⟩,
    ⟨"hmc_buffer", "hmc_xforms", "outputnode", "motion_xfm"⟩,
    ⟨"inputnode", "bold_file", "func_fit_reports_wf", "inputnode.source_file"⟩,
    ⟨"inputnode", "t1w_preproc", "func_fit_reports_wf", "inputnode.t1w_preproc"⟩,
    ⟨"inputnode", "t1w_mask", "func_fit_reports_wf", "inputnode.t1w_mask"⟩,
    ⟨"inputnode", "t1w_dseg", "func_fit_reports_wf", "inputnode.t1w_dseg"⟩,
    ⟨"inputnode", "subjects_dir", "func_fit_reports_wf", "inputnode.subjects_dir"⟩,
    ⟨"inputnode", "subject_id", "func_fit_reports_wf", "inputnode.subject_id"⟩,
    ⟨"outputnode", "coreg_boldref", "func_fit_reports_wf", "inputnode.coreg_boldref"⟩,
    ⟨"outputnode", "boldref2anat_xfm", "func_fit_reports_wf", "inputnode.boldref2anat_xfm"⟩,
    ⟨"summary", "out_report", "func_fit_reports_wf", "inputnode.summary_report"⟩ ]

/-- Stage 1, HMC boldref (`fit.py:341-384`): build the raw boldref workflow,
or wire the precomputed reference into `hmcref_buffer` and only validate the
BOLD file.  Static inputs sourced from `config` are external and not modelled. -/
def fitStage1 (hmc_boldref : Option String) (bold_file : String) :
    List Edge × List (String × String × Value) :=
  match hmc_boldref with
  | none =>
    ( [ ⟨"hmc_boldref_wf", "outputnode.bold_file", "hmcref_buffer", "bold_file"⟩,
        ⟨"hmc_boldref_wf", "outputnode.boldref", "hmcref_buffer", "boldref"⟩,
        ⟨"hmcref_buffer", "boldref", "ds_hmc_boldref_wf", "inputnode.boldref"⟩,
        ⟨"hmc_boldref_wf", "outputnode.algo_dummy_scans", "summary", "algo_dummy_scans"⟩,
        ⟨"hmc_boldref_wf", "outputnode.validation_report", "func_fit_reports_wf",
          "inputnode.validation_report"⟩ ],
      [ ("ds_hmc_boldref_wf", "inputnode.source_files", .files [bold_file]) ] )
  | some v =>
    ( [ ⟨"validate_bold", "out_file", "hmcref_buffer", "bold_file"⟩,
        ⟨"validate_bold", "out_report", "func_fit_reports_wf", "inputnode.validation_report"⟩ ],
      [ ("validate_bold", "in_file", .file bold_file),
        ("hmcref_buffer", "boldref", .file v) ] )

/-- Stage 2, head-motion estimation (`fit.py:387-411`). -/
def fitStage2 (hmc_xforms : Option String) (bold_file : String) :
    List Edge × List (String × String × Value) :=
  match hmc_xforms with
  | none =>
    ( [ ⟨"hmcref_buffer", "boldref", "bold_hmc_wf", "inputnode.raw_ref_image"⟩,
        ⟨"hmcref_buffer", "bold_file", "bold_hmc_wf", "inputnode.bold_file"⟩,
        ⟨"bold_hmc_wf", "outputnode.xforms", "ds_hmc_wf", "inputnode.xforms"⟩,
        ⟨"ds_hmc_wf", "outputnode.xforms", "hmc_buffer", "hmc_xforms"⟩ ],
      [ ("ds_hmc_wf", "inputnode.source_files", .files [bold_file]) ] )
  | some v =>
    ( [], [ ("hmc_buffer", "hmc_xforms", .file v) ] )

/-- Fieldmap registration sub-branch of Stage 3 (`fit.py:449-484`):
register the reference to the fieldmap space unless the `boldref2fmap`
transform is precomputed, in which case the cached transform is wired into
`fmapreg_buffer`. -/
def fitFmapreg (boldref2fmap_xform : Option String) :
    List Edge × List (String × String × Value) :=
  match boldref2fmap_xform with
  | none =>
    ( [ ⟨"enhance_boldref_wf", "outputnode.bias_corrected_file", "fmapreg_wf",
          "inputnode.target_ref"⟩,
        ⟨"enhance_boldref_wf", "outputnode.mask_file", "fmapreg_wf", "inputnode.target_mask"⟩,
        ⟨"fmap_select", "fmap_ref", "fmapreg_wf", "inputnode.fmap_ref"⟩,
        ⟨"fmap_select", "fmap_mask", "fmapreg_wf", "inputnode.fmap_mask"⟩,
        ⟨"fmapreg_wf", "outputnode.target2fmap_xfm", "itk_mat2txt", "in_xfms"⟩,
        ⟨"itk_mat2txt", "out_xfm", "ds_fmapreg_wf", "inputnode.xform"⟩,
        ⟨"fmapref_buffer", "out", "ds_fmapreg_wf", "inputnode.source_files"⟩,
        ⟨"ds_fmapreg_wf", "outputnode.xform", "fmapreg_buffer", "boldref2fmap_xfm"⟩ ],
      [] )
  | some v =>
    ( [], [ ("fmapreg_buffer", "boldref2fmap_xfm", .file v) ] )

/-- Unwarp sub-stage of Stage 3 (`fit.py:486-528`): added whenever a fieldmap
id is assigned and the coregistration reference is being built. -/
def fitUnwarpEdges : List Edge :=
  [ ⟨"inputnode", "fmap_ref", "fmap_select", "fmap_ref"⟩,
    ⟨"inputnode", "fmap_coeff", "fmap_select", "fmap_coeff"⟩,
    ⟨"inputnode", "fmap_mask", "fmap_select", "fmap_mask"⟩,
    ⟨"inputnode", "sdc_method", "fmap_select", "sdc_method"⟩,
    ⟨"inputnode", "fmap_id", "fmap_select", "keys"⟩,
    ⟨"fmap_select", "fmap_coeff", "unwarp_wf", "inputnode.fmap_coeff"⟩,
    ⟨"fmapreg_buffer", "boldref2fmap_xfm", "unwarp_wf", "inputnode.fmap2data_xfm"⟩,
    ⟨"enhance_boldref_wf", "outputnode.bias_corrected_file", "unwarp_wf", "inputnode.distorted"⟩,
    ⟨"unwarp_wf", "outputnode.corrected", "ds_coreg_boldref_wf", "inputnode.boldref"⟩,
    ⟨"unwarp_wf", "outputnode.corrected_mask", "regref_buffer", "boldmask"⟩,
    ⟨"fmap_select", "fmap_ref", "func_fit_reports_wf", "inputnode.fmap_ref"⟩,
    ⟨"fmap_select", "sdc_method", "summary", "distortion_correction"⟩,
    ⟨"fmapreg_buffer", "boldref2fmap_xfm", "func_fit_reports_wf", "inputnode.boldref2fmap_xfm"⟩,
    ⟨"unwarp_wf", "outputnode.fieldmap", "func_fit_reports_wf", "inputnode.fieldmap"⟩ ]

/-- Stage 3, coregistration reference (`fit.py:415-542`). -/
def fitStage3 (coreg_boldref boldref2fmap_xform : Option String)
    (fieldmap_id : Option String) (sbref_files : List String) :
    List Edge × List (String × String × Value) :=
  match coreg_boldref with
  | none =>
    let common : List Edge :=
      [ ⟨"hmcref_buffer", "boldref", "fmapref_buffer", "boldref_files"⟩,
        ⟨"fmapref_buffer", "out", "enhance_boldref_wf", "inputnode.in_file"⟩,
        ⟨"fmapref_buffer", "out", "ds_coreg_boldref_wf", "inputnode.source_files"⟩,
        ⟨"ds_coreg_boldref_wf", "outputnode.boldref", "regref_buffer", "boldref"⟩,
        ⟨"fmapref_buffer", "out", "func_fit_reports_wf", "inputnode.sdc_boldref"⟩ ]
    match fieldmap_id with
    | some _ =>
      let reg := fitFmapreg boldref2fmap_xform
      ( common ++ reg.1 ++ fitUnwarpEdges,
        ("fmapref_buffer", "sbref_files", .files sbref_files) :: reg.2 )
    | none =>
      ( common ++
          [ ⟨"enhance_boldref_wf", "outputnode.bias_corrected_file", "ds_coreg_boldref_wf",
              "inputnode.boldref"⟩,
            ⟨"enhance_boldref_wf", "outputnode.mask_file", "regref_buffer", "boldmask"⟩ ],
        [ ("fmapref_buffer", "sbref_files", .files sbref_files) ] )
  | some v =>
    ( [], [ ("regref_buffer", "boldref", .file v) ] )

/-- Stage 4, anatomical registration (`fit.py:544-587`). -/
def fitStage4 (boldref2anat_xform : Option String) :
    List Edge × List (String × String × Value) :=
  match boldref2anat_xform with
  | none =>
    ( [ ⟨"inputnode", "t1w_preproc", "bold_reg_wf", "inputnode.t1w_preproc"⟩,
        ⟨"inputnode", "t1w_mask", "bold_reg_wf", "inputnode.t1w_mask"⟩,
        ⟨"inputnode", "t1w_dseg", "bold_reg_wf", "inputnode.t1w_dseg"⟩,
        ⟨"inputnode", "subjects_dir", "bold_reg_wf", "inputnode.subjects_dir"⟩,
        ⟨"inputnode", "subject_id", "bold_reg_wf", "inputnode.subject_id"⟩,
        ⟨"inputnode", "fsnative2t1w_xfm", "bold_reg_wf", "inputnode.fsnative2t1w_xfm"⟩,
        ⟨"regref_buffer", "boldref", "bold_reg_wf", "inputnode.ref_bold_brain"⟩,
        ⟨"regref_buffer", "boldref", "ds_boldreg_wf", "inputnode.source_files"⟩,
        ⟨"bold_reg_wf", "outputnode.itk_bold_to_t1", "ds_boldreg_wf", "inputnode.xform"⟩,
        ⟨"ds_boldreg_wf", "outputnode.xform", "outputnode", "boldref2anat_xfm"⟩,
        ⟨"bold_reg_wf", "outputnode.fallback", "summary", "fallback"⟩ ],
      [] )
  | some v =>
    ( [], [ ("outputnode", "boldref2anat_xfm", .file v) ] )

/-- Shallow embedding of `init_bold_fit_wf` (`fit.py:94-589`).

`bold_query` is the BOLD series together with each file's echo time (the
layout metadata lookup of `fit.py:202` is external); `sbref_query` is the
layout's sbref query result for `get_sbrefs`.  The graph records every
`workflow.connect` edge, the explicit `workflow.add_nodes([inputnode])` of
`fit.py:276`, and each static artifact assignment; static inputs read from the
global `config` are external collaborators and are not recorded. -/
def init_bold_fit_wf (bold_query sbref_query : List (String × Nat))
    (precomputed : Precomputed) (fieldmap_id : Option String) : Graph :=
  let bold_files := sortByEchoTime bold_query
  let sbref_files := get_sbrefs sbref_query
  let bold_file := bold_files.headD ""
  let s1 := fitStage1 precomputed.hmc_boldref bold_file
  let s2 := fitStage2 precomputed.hmc bold_file
  let s3 := fitStage3 precomputed.coreg_boldref precomputed.boldref2fmap fieldmap_id sbref_files
  let s4 := fitStage4 precomputed.boldref2anat
  { explicitNodes := ["inputnode"],
    edges := fitBaseEdges ++ s1.1 ++ s2.1 ++ s3.1 ++ s4.1,
    inputs := ("inputnode", "bold_file", .files (bold_query.map Prod.fst)) ::
      (s1.2 ++ s2.2 ++ s3.2 ++ s4.2) }

/-! ## `init_bold_native_wf` (`fit.py:592-872`) -/

/-- One echo file of a BOLD series: its path, its `EchoTime` metadata (layout
lookup, external) and the shape of the raw image (`nb.load(echo).shape`,
external). -/
structure EchoFile where
  path : String
  echoTime : Nat
  shape : List Nat
deriving DecidableEq, Repr

/-- The two `RuntimeError`s of `fit.py:700-710`.  The shape-mismatch
diagnostic lists every echo file with its shape (`fit.py:703-705`). -/
inductive NativeError where
  | shapeMismatch (diagnostic : List (String × List Nat))
  | insufficientEchoes
deriving DecidableEq, Repr

/-- Connections always present in `init_bold_native_wf` (`fit.py:766-769`). -/
def nativeBaseEdges : List Edge :=
  [ ⟨"echo_index", "echoidx", "bold_source", "index"⟩,
    ⟨"bold_source", "out", "validate_bold", "in_file"⟩ ]

/-- Slice-timing correction wiring (`fit.py:772-780`). -/
def nativeStcEdges (run_stc : Bool) : List Edge :=
  if run_stc then
    [ ⟨"inputnode", "dummy_scans", "bold_stc_wf", "inputnode.skip_vols"⟩,
      ⟨"validate_bold", "out_file", "bold_stc_wf", "inputnode.bold_file"⟩,
      ⟨"bold_stc_wf", "outputnode.stc_file", "boldbuffer", "bold_file"⟩ ]
  else
    [ ⟨"validate_bold", "out_file", "boldbuffer", "bold_file"⟩ ]

/-- Fieldmap metadata preparation (`fit.py:783-805`), present when a fieldmap
id is assigned. -/
def nativeFmapPrepEdges : List Edge :=
  [ ⟨"inputnode", "fmap_ref", "fmap_select", "fmap_ref"⟩,
    ⟨"inputnode", "fmap_coeff", "fmap_select", "fmap_coeff"⟩,
    ⟨"inputnode", "fmap_id", "fmap_select", "keys"⟩,
    ⟨"distortion_params", "readout_time", "boldbuffer", "ro_time"⟩,
    ⟨"distortion_params", "pe_direction", "boldbuffer", "pe_dir"⟩ ]

/-- Resampling to boldref space (`fit.py:808-820`). -/
def nativeResampleEdges : List Edge :=
  [ ⟨"inputnode", "boldref", "boldref_bold", "ref_file"⟩,
    ⟨"inputnode", "motion_xfm", "boldref_bold", "transforms"⟩,
    ⟨"boldbuffer", "bold_file", "boldref_bold", "in_file"⟩,
    ⟨"boldbuffer", "ro_time", "boldref_bold", "ro_time"⟩,
    ⟨"boldbuffer", "pe_dir", "boldref_bold", "pe_dir"⟩ ]

/-- Fieldmap reconstruction in boldref space (`fit.py:822-834`), present when
a fieldmap id is assigned. -/
def nativeFmapReconEdges : List Edge :=
  [ ⟨"inputnode", "boldref", "boldref_fmap", "target_ref_file"⟩,
    ⟨"inputnode", "boldref2fmap_xfm", "boldref_fmap", "transforms"⟩,
    ⟨"fmap_select", "fmap_coeff", "boldref_fmap", "in_coeffs"⟩,
    ⟨"fmap_select", "fmap_ref", "boldref_fmap", "fmap_ref_file"⟩,
    ⟨"boldref_fmap", "out_file", "boldref_bold", "fieldmap"⟩ ]

/-- Multi-echo join and optimal combination (`fit.py:836-864`).  The motion
transforms are deliberately not connected to `outputnode.motion_xfm`
(`fit.py:852-853`). -/
def nativeMultiEchoEdges : List Edge :=
  [ ⟨"inputnode", "bold_mask", "bold_t2smap_wf", "inputnode.bold_mask"⟩,
    ⟨"boldref_bold", "out_file", "join_echos", "bold_files"⟩,
    ⟨"join_echos", "bold_files", "bold_t2smap_wf", "inputnode.bold_file"⟩,
    ⟨"join_echos", "bold_files", "outputnode", "bold_echos"⟩,
    ⟨"bold_t2smap_wf", "outputnode.bold", "outputnode", "bold_minimal"⟩,
    ⟨"bold_t2smap_wf", "outputnode.bold", "outputnode", "bold_native"⟩,
    ⟨"bold_t2smap_wf", "outputnode.t2star_map", "outputnode", "t2star_map"⟩ ]

/-- Single-echo final wiring (`fit.py:865-870`): the motion transforms are
forwarded to `outputnode.motion_xfm`. -/
def nativeSingleEchoEdges : List Edge :=
  [ ⟨"inputnode", "motion_xfm", "outputnode", "motion_xfm"⟩,
    ⟨"boldbuffer", "bold_file", "outputnode", "bold_minimal"⟩,
    ⟨"boldref_bold", "out_file", "outputnode", "bold_native"⟩ ]

/-- Shallow embedding of `init_bold_native_wf` (`fit.py:592-872`).

`bold_series` carries each echo file with its echo time and raw image shape
(layout metadata and `nibabel` header reads are external).  `run_stc` stands
for `bool(metadata.get("SliceTiming")) and "slicetiming" not in
config.workflow.ignore` (`fit.py:712`), both read from external collaborators.
The two `RuntimeError`s of the multi-echo validation (`fit.py:700-710`) are
the `Except.error` cases; note the shape check precedes the echo-count check. -/
def init_bold_native_wf (bold_series : List EchoFile)
    (fieldmap_id : Option String) (run_stc : Bool) : Except NativeError Graph :=
  -- fit.py:684-692: sort by ascending echo time (stable, like Python sorted)
  let bold_files := bold_series.insertionSort (fun a b => a.echoTime ≤ b.echoTime)
  let multiecho := bold_files.length > 1
  let bold_file := (bold_files.headD ⟨"", 0, []⟩).path
  -- fit.py:700-710
  let shapes := bold_files.map EchoFile.shape
  if multiecho && shapes.dedup.length != 1 then
    .error (.shapeMismatch (bold_files.map (fun e => (e.path, e.shape))))
  else if multiecho && shapes.length == 2 then
    .error .insufficientEchoes
  else
    .ok
      { explicitNodes := [],
        edges :=
          nativeBaseEdges ++
          nativeStcEdges run_stc ++
          (if fieldmap_id.isSome then nativeFmapPrepEdges else []) ++
          nativeResampleEdges ++
          (if fieldmap_id.isSome then nativeFmapReconEdges else []) ++
          (if multiecho then nativeMultiEchoEdges else nativeSingleEchoEdges),
        inputs :=
          [ ("bold_source", "inlist", .files (bold_files.map EchoFile.path)) ] ++
          (if fieldmap_id.isSome then
            [ ("distortion_params", "in_file", .file bold_file) ]
          else []) }

/-! ## Helper lemmas -/

/-- Bridge from a computed `contains = false` to list non-membership. -/
theorem notMemOfContainsFalse {α : Type} [BEq α] [LawfulBEq α] {l : List α} {x : α}
    (h : l.contains x = false) : x ∉ l := by
  simpa using h

/-- Bridge from a computed `contains = true` to list membership. -/
theorem memOfContainsTrue {α : Type} [BEq α] [LawfulBEq α] {l : List α} {x : α}
    (h : l.contains x = true) : x ∈ l := by
  simpa using h

/-- Taking one element and then the head is just the head. -/
theorem head?_take_one {α : Type} (l : List α) : (l.take 1).head? = l.head? := by
  cases l <;> rfl

/-- A nonempty list's optional head is its default-valued head. -/
theorem head?_eq_headD {α : Type} (l : List α) (d : α) (h : l ≠ []) :
    l.head? = some (l.headD d) := by
  cases l with
  | nil => exact absurd rfl h
  | cons a t => rfl

/-- Generic fact about keyed `filterMap`s: if `g` tags each produced element
with its source key, filtering the output by a key not in the input yields
nothing. -/
theorem filterKeyedOfNotMem {α β : Type} [DecidableEq α] (g : α → Option β) (key : β → α)
    (hkey : ∀ x w, g x = some w → key w = x) :
    ∀ (l : List α) (bf : α), bf ∉ l →
      (l.filterMap g).filter (fun w => key w == bf) = [] := by
  intro l
  induction l with
  | nil => intro bf _; rfl
  | cons a t ih =>
    intro bf hbf
    rw [List.filterMap_cons]
    cases hga : g a with
    | none => exact ih bf (fun h => hbf (List.mem_cons_of_mem a h))
    | some w =>
      rw [List.filter_cons]
      have hka : key w = a := hkey a w hga
      have : (key w == bf) = false := by
        simp only [hka, beq_eq_false_iff_ne, ne_eq]
        intro h; exact hbf (h ▸ List.mem_cons_self a t)
      rw [this]
      exact ih bf (fun h => hbf (List.mem_cons_of_mem a h))

/-- Generic fact about keyed `filterMap`s over duplicate-free inputs:
filtering the output by one key yields exactly that key's production. -/
theorem filterKeyed {α β : Type} [DecidableEq α] (g : α → Option β) (key : β → α)
    (hkey : ∀ x w, g x = some w → key w = x) :
    ∀ (l : List α), l.Nodup → ∀ bf ∈ l,
      (l.filterMap g).filter (fun w => key w == bf) = (g bf).toList := by
  intro l
  induction l with
  | nil => intro _ bf hbf; exact absurd hbf (List.not_mem_nil bf)
  | cons a t ih =>
    intro hnd bf hbf
    have hat : a ∉ t := (List.nodup_cons.mp hnd).1
    have hndt : t.Nodup := (List.nodup_cons.mp hnd).2
    rw [List.filterMap_cons]
    rcases List.mem_cons.mp hbf with hba | hbt
    · subst hba
      cases hga : g bf with
      | none =>
        rw [filterKeyedOfNotMem g key hkey t bf hat]
        rfl
      | some w =>
        rw [List.filter_cons]
        have : (key w == bf) = true := by
          simp [hkey bf w hga]
        rw [this, filterKeyedOfNotMem g key hkey t bf hat]
        rfl
    · have hba : bf ≠ a := fun h => hat (h ▸ hbt)
      cases hga : g a with
      | none => exact ih hndt bf hbt
      | some w =>
        rw [List.filter_cons]
        have : (key w == bf) = false := by
          simp only [hkey a w hga, beq_eq_false_iff_ne, ne_eq]
          exact fun h => hba h.symm
        rw [this]
        exact ih hndt bf hbt

/-- First components of a keyed `filterMap` are the input elements on which
the generator fires. -/
theorem mapFstKeyed {α β : Type} (f : α → Option β) :
    ∀ l : List α,
      (l.filterMap (fun x => (f x).map (fun k => (x, k)))).map Prod.fst =
        l.filter (fun x => (f x).isSome) := by
  intro l
  induction l with
  | nil => rfl
  | cons a t ih =>
    rw [List.filterMap_cons, List.filter_cons]
    cases hfa : f a with
    | none => simpa using ih
    | some w => simpa using ih

/-! ## Characterization of the resolver's main branch -/

/-- Series actually considered: the first file of each series (`base.py:941`). -/
def boldFilesOf (bold_data : List (List String)) : List String :=
  bold_data.filterMap List.head?

/-- The candidate intersection the resolver computes for one series: declared
candidates filtered to known (post-ANAT-filter) estimator ids (`base.py:944`). -/
def resolvedCandidates (get_estimator : String → List String) (fmap_estimators : List Estimator)
    (ignore_fieldmaps : Bool) (bold_file : String) : List String :=
  candidateKeys get_estimator
    ((effectiveEstimators fmap_estimators ignore_fieldmaps).map Estimator.bids_id) bold_file

/-- The final series→estimator association list (`base.py:956-961`). -/
def assignmentOf (get_estimator : String → List String) (fmap_estimators : List Estimator)
    (ignore_fieldmaps : Bool) (bold_data : List (List String)) : List (String × String) :=
  (boldFilesOf bold_data).filterMap (fun bf =>
    (resolvedCandidates get_estimator fmap_estimators ignore_fieldmaps bf).head?.map
      (fun k => (bf, k)))

/-- The warnings emitted by the tie-break loop (`base.py:948-954`). -/
def warningsOf (get_estimator : String → List String) (fmap_estimators : List Estimator)
    (ignore_fieldmaps : Bool) (bold_data : List (List String)) : List ResolutionWarning :=
  (boldFilesOf bold_data).filterMap (fun bf =>
    if (resolvedCandidates get_estimator fmap_estimators ignore_fieldmaps bf).length > 1 then
      some ⟨bf, resolvedCandidates get_estimator fmap_estimators ignore_fieldmaps bf,
        (resolvedCandidates get_estimator fmap_estimators ignore_fieldmaps bf).headD ""⟩
    else none)

/-- The pruned estimator list (`base.py:963`). -/
def prunedOf (get_estimator : String → List String) (fmap_estimators : List Estimator)
    (ignore_fieldmaps : Bool) (bold_data : List (List String)) : List Estimator :=
  (effectiveEstimators fmap_estimators ignore_fieldmaps).filter (fun f =>
    (assignmentOf get_estimator fmap_estimators ignore_fieldmaps bold_data).any
      (fun p => p.2 = f.bids_id))

/-- When the configuration guard passes and discovery found at least one
estimator, the resolver reaches its main branch and returns the three
characterized components. -/
theorem map_fieldmap_estimation_main (ge : String → List String) (disc : List Estimator)
    (bold_data : List (List String)) (ignore : Bool) (us : UseSyn) (force : Bool)
    (hguard : (!ignore || us.toBool || force) = true) (hdisc : disc ≠ []) :
    map_fieldmap_estimation ge disc bold_data ignore us force =
      .ok (prunedOf ge disc ignore bold_data,
        assignmentOf ge disc ignore bold_data,
        warningsOf ge disc ignore bold_data) := by
  unfold map_fieldmap_estimation
  rw [if_neg (by simp [hguard]), if_neg (by simp [List.isEmpty_iff, hdisc])]
  simp only [Except.ok.injEq, Prod.mk.injEq]
  refine ⟨?_, ?_, ?_⟩
  · simp only [prunedOf, assignmentOf, resolvedCandidates, boldFilesOf,
      List.filterMap_map, Function.comp_def, head?_take_one]
  · simp only [assignmentOf, resolvedCandidates, boldFilesOf,
      List.filterMap_map, Function.comp_def, head?_take_one]
  · simp only [warningsOf, resolvedCandidates, boldFilesOf,
      List.filterMap_map, Function.comp_def]

/-- Inversion: any `ok` result of the resolver is either the trivial empty
result (early branches) or the main-branch triple. -/
theorem mfe_ok_cases (ge : String → List String) (disc : List Estimator)
    (bold_data : List (List String)) (ignore : Bool) (us : UseSyn) (force : Bool)
    (pruned : List Estimator) (emap : List (String × String)) (warns : List ResolutionWarning)
    (h : map_fieldmap_estimation ge disc bold_data ignore us force = .ok (pruned, emap, warns)) :
    (pruned = [] ∧ emap = []) ∨
      (pruned = prunedOf ge disc ignore bold_data ∧
        emap = assignmentOf ge disc ignore bold_data) := by
  by_cases hg : (!ignore || us.toBool || force) = true
  · by_cases hdisc : disc = []
    · subst hdisc
      left
      unfold map_fieldmap_estimation at h
      rw [if_neg (by simp [hg]),
        if_pos (by decide : ([] : List Estimator).isEmpty = true)] at h
      by_cases he : us = .error
      · rw [if_pos he] at h
        exact Except.noConfusion h
      · rw [if_neg he] at h
        have h' := h.symm
        simp only [Except.ok.injEq, Prod.mk.injEq] at h'
        exact ⟨h'.1, h'.2.1⟩
    · right
      rw [map_fieldmap_estimation_main ge disc bold_data ignore us force hg hdisc] at h
      have h' := h.symm
      simp only [Except.ok.injEq, Prod.mk.injEq] at h'
      exact ⟨h'.1, h'.2.1⟩
  · left
    have hfalse : (!ignore || us.toBool || force) = false := by simpa using hg
    unfold map_fieldmap_estimation at h
    rw [if_pos (by simp [hfalse])] at h
    have h' := h.symm
    simp only [Except.ok.injEq, Prod.mk.injEq] at h'
    exact ⟨h'.1, h'.2.1⟩

/-- Membership in the assignment: the pair's series is a considered series and
the pair's estimator is the head of that series' candidate intersection. -/
theorem mem_assignmentOf (ge : String → List String) (disc : List Estimator)
    (ignore : Bool) (bold_data : List (List String)) (p : String × String) :
    p ∈ assignmentOf ge disc ignore bold_data ↔
      p.1 ∈ boldFilesOf bold_data ∧
        (resolvedCandidates ge disc ignore p.1).head? = some p.2 := by
  constructor
  · intro hp
    obtain ⟨bf, hbf, hf⟩ := List.mem_filterMap.mp hp
    obtain ⟨k, hk, hpk⟩ := Option.map_eq_some'.mp hf
    obtain rfl : (bf, k) = p := hpk
    exact ⟨hbf, hk⟩
  · intro ⟨hbf, hk⟩
    exact List.mem_filterMap.mpr ⟨p.1, hbf, by rw [hk]; rfl⟩

/-- Every assigned estimator id survives the pruning filter. -/
theorem assignmentOf_refs_pruned (ge : String → List String) (disc : List Estimator)
    (ignore : Bool) (bold_data : List (List String)) :
    ∀ p ∈ assignmentOf ge disc ignore bold_data,
      ∃ f ∈ prunedOf ge disc ignore bold_data, f.bids_id = p.2 := by
  intro p hp
  obtain ⟨hbf, hhead⟩ := (mem_assignmentOf ge disc ignore bold_data p).mp hp
  have hk : p.2 ∈ resolvedCandidates ge disc ignore p.1 := by
    cases hc : resolvedCandidates ge disc ignore p.1 with
    | nil => rw [hc] at hhead; exact Option.noConfusion hhead
    | cons a t =>
      rw [hc] at hhead
      obtain rfl : a = p.2 := by simpa using hhead
      exact List.mem_cons_self _ _
  have hid : p.2 ∈ ge p.1 ∧ ∃ f ∈ effectiveEstimators disc ignore, f.bids_id = p.2 := by
    simpa [resolvedCandidates, candidateKeys] using hk
  obtain ⟨-, f, hf, hfid⟩ := hid
  refine ⟨f, ?_, hfid⟩
  refine List.mem_filter.mpr ⟨hf, ?_⟩
  simp only [List.any_eq_true, decide_eq_true_eq]
  exact ⟨p, hp, by rw [hfid]⟩

/-- Every pruned estimator is referenced by some assignment. -/
theorem prunedOf_subset_image (ge : String → List String) (disc : List Estimator)
    (ignore : Bool) (bold_data : List (List String)) :
    ∀ f ∈ prunedOf ge disc ignore bold_data,
      ∃ p ∈ assignmentOf ge disc ignore bold_data, p.2 = f.bids_id := by
  intro f hf
  have := (List.mem_filter.mp hf).2
  simpa using this

/-! ## Claim theorems: estimator resolution (C2-C5) -/

/-- C2: for every series whose candidate-estimator intersection has more than
one member, the resolver deterministically assigns the first candidate in
declaration order, emits exactly one recoverable warning naming all candidates
and the chosen one, and discards the remaining candidates for that series. -/
theorem resolve_first_candidate_wins
    (ge : String → List String) (disc : List Estimator) (bold_data : List (List String))
    (ignore : Bool) (us : UseSyn) (force : Bool) (bf : String)
    (hguard : (!ignore || us.toBool || force) = true)
    (hdisc : disc ≠ [])
    (hnodup : (boldFilesOf bold_data).Nodup)
    (hbf : bf ∈ boldFilesOf bold_data)
    (hlen : 1 < (resolvedCandidates ge disc ignore bf).length) :
    map_fieldmap_estimation ge disc bold_data ignore us force =
      .ok (prunedOf ge disc ignore bold_data,
        assignmentOf ge disc ignore bold_data,
        warningsOf ge disc ignore bold_data) ∧
    (assignmentOf ge disc ignore bold_data).filter (fun p => p.1 == bf) =
      [(bf, (resolvedCandidates ge disc ignore bf).headD "")] ∧
    (warningsOf ge disc ignore bold_data).filter (fun w => w.bold_file == bf) =
      [⟨bf, resolvedCandidates ge disc ignore bf,
        (resolvedCandidates ge disc ignore bf).headD ""⟩] := by
  have hne : resolvedCandidates ge disc ignore bf ≠ [] := by
    intro h0
    rw [h0] at hlen
    simp at hlen
  refine ⟨map_fieldmap_estimation_main ge disc bold_data ignore us force hguard hdisc, ?_, ?_⟩
  · have hkey : ∀ (x : String) (w : String × String),
        (fun y => (resolvedCandidates ge disc ignore y).head?.map (fun k => (y, k))) x = some w →
          w.1 = x := by
      intro x w hw
      obtain ⟨k, _, hpk⟩ := Option.map_eq_some'.mp hw
      rw [← hpk]
    have hfk := filterKeyed
      (fun y => (resolvedCandidates ge disc ignore y).head?.map (fun k => (y, k)))
      Prod.fst hkey (boldFilesOf bold_data) hnodup bf hbf
    simp only at hfk
    rw [assignmentOf, hfk, head?_eq_headD _ "" hne]
    rfl
  · have hkey : ∀ (x : String) (w : ResolutionWarning),
        (fun y =>
          if (resolvedCandidates ge disc ignore y).length > 1 then
            some (⟨y, resolvedCandidates ge disc ignore y,
              (resolvedCandidates ge disc ignore y).headD ""⟩ : ResolutionWarning)
          else none) x = some w →
          w.bold_file = x := by
      intro x w hw
      simp only at hw
      by_cases hc : (resolvedCandidates ge disc ignore x).length > 1
      · rw [if_pos hc] at hw
        cases hw
        rfl
      · rw [if_neg hc] at hw
        exact Option.noConfusion hw
    have hfk := filterKeyed
      (fun y =>
        if (resolvedCandidates ge disc ignore y).length > 1 then
          some (⟨y, resolvedCandidates ge disc ignore y,
            (resolvedCandidates ge disc ignore y).headD ""⟩ : ResolutionWarning)
        else none)
      ResolutionWarning.bold_file hkey (boldFilesOf bold_data) hnodup bf hbf
    simp only at hfk
    rw [warningsOf, hfk, if_pos hlen]
    rfl

/-- C2 witness: series `s1` declares candidates `[E1, E2]`, both discovered;
the assignment is `E1` and one warning names both and `E1`. -/
theorem resolve_first_candidate_wins_witness :
    map_fieldmap_estimation (fun _ => ["E1", "E2"])
        [⟨"E1", .PEPOLAR⟩, ⟨"E2", .MAPPED⟩] [["s1"]] false .off false =
      .ok (prunedOf (fun _ => ["E1", "E2"]) [⟨"E1", .PEPOLAR⟩, ⟨"E2", .MAPPED⟩] false [["s1"]],
        assignmentOf (fun _ => ["E1", "E2"]) [⟨"E1", .PEPOLAR⟩, ⟨"E2", .MAPPED⟩] false [["s1"]],
        warningsOf (fun _ => ["E1", "E2"]) [⟨"E1", .PEPOLAR⟩, ⟨"E2", .MAPPED⟩] false [["s1"]]) ∧
    (assignmentOf (fun _ => ["E1", "E2"]) [⟨"E1", .PEPOLAR⟩, ⟨"E2", .MAPPED⟩] false
        [["s1"]]).filter (fun p => p.1 == "s1") =
      [("s1", (resolvedCandidates (fun _ => ["E1", "E2"]) [⟨"E1", .PEPOLAR⟩, ⟨"E2", .MAPPED⟩]
        false "s1").headD "")] ∧
    (warningsOf (fun _ => ["E1", "E2"]) [⟨"E1", .PEPOLAR⟩, ⟨"E2", .MAPPED⟩] false
        [["s1"]]).filter (fun w => w.bold_file == "s1") =
      [⟨"s1", resolvedCandidates (fun _ => ["E1", "E2"]) [⟨"E1", .PEPOLAR⟩, ⟨"E2", .MAPPED⟩]
          false "s1",
        (resolvedCandidates (fun _ => ["E1", "E2"]) [⟨"E1", .PEPOLAR⟩, ⟨"E2", .MAPPED⟩]
          false "s1").headD ""⟩] :=
  resolve_first_candidate_wins (fun _ => ["E1", "E2"]) [⟨"E1", .PEPOLAR⟩, ⟨"E2", .MAPPED⟩]
    [["s1"]] false .off false "s1" (by decide) (by decide) (by decide) (by decide) (by decide)

/-- C3: for every input on which the resolver returns, the pruned estimator
list is exactly the image of the assignment: each pruned estimator is
referenced by some series, and each assigned id has its estimator in the
pruned list. -/
theorem pruned_equals_assignment_image
    (ge : String → List String) (disc : List Estimator) (bold_data : List (List String))
    (ignore : Bool) (us : UseSyn) (force : Bool)
    (pruned : List Estimator) (emap : List (String × String)) (warns : List ResolutionWarning)
    (h : map_fieldmap_estimation ge disc bold_data ignore us force = .ok (pruned, emap, warns)) :
    (∀ f ∈ pruned, ∃ p ∈ emap, p.2 = f.bids_id) ∧
    (∀ p ∈ emap, ∃ f ∈ pruned, f.bids_id = p.2) := by
  rcases mfe_ok_cases ge disc bold_data ignore us force pruned emap warns h with
    ⟨hp, he⟩ | ⟨hp, he⟩
  · subst hp
    subst he
    simp
  · subst hp
    subst he
    exact ⟨prunedOf_subset_image ge disc ignore bold_data,
      assignmentOf_refs_pruned ge disc ignore bold_data⟩

/-- C3 witness: concrete run whose pruned list is `[E1]` and assignment is
`s1 -> E1`. -/
theorem pruned_equals_assignment_image_witness :
    (∀ f ∈ [(⟨"E1", .PEPOLAR⟩ : Estimator)],
      ∃ p ∈ [("s1", "E1")], p.2 = f.bids_id) ∧
    (∀ p ∈ [("s1", "E1")],
      ∃ f ∈ [(⟨"E1", .PEPOLAR⟩ : Estimator)], f.bids_id = p.2) :=
  pruned_equals_assignment_image (fun _ => ["E1", "E2"])
    [⟨"E1", .PEPOLAR⟩, ⟨"E2", .MAPPED⟩] [["s1"]] false .off false
    [⟨"E1", .PEPOLAR⟩] [("s1", "E1")] [⟨"s1", ["E1", "E2"], "E1"⟩] (by rfl)

/-- C4 counterexample: series `s1` is an input series with an empty candidate
intersection (one estimator is discovered but not declared for it); the
returned assignment is empty, so `s1` is not in its domain and the assignment
is not a total function over all input series. -/
theorem assignment_not_total_counterexample :
    map_fieldmap_estimation (fun _ => []) [⟨"E1", .MAPPED⟩] [["s1"]] false .off false =
      .ok ([], [], []) ∧
    "s1" ∈ boldFilesOf [["s1"]] :=
  ⟨by rfl, by decide⟩

/-- C4 amended: the assignment is a partial function whose domain is exactly
the series with a nonempty candidate intersection; each series maps to at most
one estimator (domain keys are duplicate-free), and never to an estimator
absent from the pruned list. -/
theorem assignment_partial_domain
    (ge : String → List String) (disc : List Estimator) (bold_data : List (List String))
    (ignore : Bool) (us : UseSyn) (force : Bool)
    (hguard : (!ignore || us.toBool || force) = true)
    (hdisc : disc ≠ [])
    (hnodup : (boldFilesOf bold_data).Nodup) :
    map_fieldmap_estimation ge disc bold_data ignore us force =
      .ok (prunedOf ge disc ignore bold_data,
        assignmentOf ge disc ignore bold_data,
        warningsOf ge disc ignore bold_data) ∧
    (∀ bf, (∃ v, (bf, v) ∈ assignmentOf ge disc ignore bold_data) ↔
      bf ∈ boldFilesOf bold_data ∧ resolvedCandidates ge disc ignore bf ≠ []) ∧
    ((assignmentOf ge disc ignore bold_data).map Prod.fst).Nodup ∧
    (∀ p ∈ assignmentOf ge disc ignore bold_data,
      ∃ f ∈ prunedOf ge disc ignore bold_data, f.bids_id = p.2) := by
  refine ⟨map_fieldmap_estimation_main ge disc bold_data ignore us force hguard hdisc,
    ?_, ?_, assignmentOf_refs_pruned ge disc ignore bold_data⟩
  · intro bf
    constructor
    · intro ⟨v, hv⟩
      obtain ⟨hbf, hhead⟩ := (mem_assignmentOf ge disc ignore bold_data (bf, v)).mp hv
      refine ⟨hbf, ?_⟩
      intro h0
      rw [h0] at hhead
      exact Option.noConfusion hhead
    · intro ⟨hbf, hne⟩
      exact ⟨(resolvedCandidates ge disc ignore bf).headD "",
        (mem_assignmentOf ge disc ignore bold_data _).mpr
          ⟨hbf, head?_eq_headD _ "" hne⟩⟩
  · rw [assignmentOf, mapFstKeyed]
    exact hnodup.filter _

/-- C4 amended witness: for the two-candidate run, `s1` is in the domain and
the domain keys are duplicate-free. -/
theorem assignment_partial_domain_witness :
    (∃ v, ("s1", v) ∈ assignmentOf (fun _ => ["E1", "E2"])
      [⟨"E1", .PEPOLAR⟩, ⟨"E2", .MAPPED⟩] false [["s1"]]) ∧
    ((assignmentOf (fun _ => ["E1", "E2"])
      [⟨"E1", .PEPOLAR⟩, ⟨"E2", .MAPPED⟩] false [["s1"]]).map Prod.fst).Nodup := by
  have h := assignment_partial_domain (fun _ => ["E1", "E2"])
    [⟨"E1", .PEPOLAR⟩, ⟨"E2", .MAPPED⟩] [["s1"]] false .off false
    (by decide) (by decide) (by decide)
  exact ⟨(h.2.1 "s1").mpr ⟨by decide, by decide⟩, h.2.2.1⟩

/-- C5: with zero discovered estimators the resolver returns the empty pair,
except that the `error` synthetic-correction setting escalates the absence to
a raised error; conversely an error is raised only under that setting with
zero discovered estimators. -/
theorem resolve_empty_discovery
    (ge : String → List String) (bold_data : List (List String))
    (ignore : Bool) (us : UseSyn) (force : Bool) :
    (map_fieldmap_estimation ge [] bold_data ignore us force =
      if us = .error then
        .error "Fieldmap-less (SyN) estimation was requested, but PhaseEncodingDirection information appears to be absent."
      else .ok ([], [], [])) ∧
    (∀ (disc : List Estimator) (e : String),
      map_fieldmap_estimation ge disc bold_data ignore us force = .error e →
        us = .error ∧ disc = []) := by
  constructor
  · unfold map_fieldmap_estimation
    by_cases hg : (!ignore || us.toBool || force) = true
    · rw [if_neg (by simp [hg]),
        if_pos (by decide : ([] : List Estimator).isEmpty = true)]
    · have hfalse : (!ignore || us.toBool || force) = false := by simpa using hg
      rw [if_pos (by simp [hfalse])]
      have hus : us ≠ .error := by
        intro h
        subst h
        simp [UseSyn.toBool] at hfalse
      rw [if_neg hus]
  · intro disc e h
    by_cases hg : (!ignore || us.toBool || force) = true
    · by_cases hdisc : disc = []
      · subst hdisc
        unfold map_fieldmap_estimation at h
        rw [if_neg (by simp [hg]),
          if_pos (by decide : ([] : List Estimator).isEmpty = true)] at h
        by_cases he : us = .error
        · exact ⟨he, rfl⟩
        · rw [if_neg he] at h
          exact Except.noConfusion h
      · rw [map_fieldmap_estimation_main ge disc bold_data ignore us force hg hdisc] at h
        exact Except.noConfusion h
    · have hfalse : (!ignore || us.toBool || force) = false := by simpa using hg
      unfold map_fieldmap_estimation at h
      rw [if_pos (by simp [hfalse])] at h
      exact Except.noConfusion h

/-- C5 witness: with no estimators, `use_syn = error` raises and `use_syn`
truthy-but-not-error returns the empty pair; the raised error implies the
error setting and empty discovery. -/
theorem resolve_empty_discovery_witness :
    map_fieldmap_estimation (fun _ => ["E1"]) [] [["s1"]] false .on false =
      .ok ([], [], []) ∧
    ((UseSyn.error = UseSyn.error) ∧ ([] : List Estimator) = []) := by
  have h1 := (resolve_empty_discovery (fun _ => ["E1"]) [["s1"]] false .on false).1
  have h2 := (resolve_empty_discovery (fun _ => ["E1"]) [["s1"]] false .error false).2 [] _ (by rfl)
  exact ⟨by simpa using h1, h2⟩

/-! ## Claim theorems: multi-echo coordination (C6, C8) -/

/-- C6 counterexample: a series with exactly two echoes of mismatching shapes
fails with the shape-mismatch error, not the insufficient-echoes error — the
shape check runs before the echo-count check. -/
theorem two_echo_shape_first_counterexample :
    init_bold_native_wf [⟨"echo1", 1, [2, 2, 2]⟩, ⟨"echo2", 2, [3, 3, 3]⟩] none false =
      .error (.shapeMismatch [("echo1", [2, 2, 2]), ("echo2", [3, 3, 3])]) ∧
    init_bold_native_wf [⟨"echo1", 1, [2, 2, 2]⟩, ⟨"echo2", 2, [3, 3, 3]⟩] none false ≠
      .error .insufficientEchoes := by
  constructor
  · rfl
  · intro h
    have h2 : (Except.error (NativeError.shapeMismatch
          [("echo1", [2, 2, 2]), ("echo2", [3, 3, 3])]) : Except NativeError Graph) =
        Except.error NativeError.insufficientEchoes := by
      rw [← h]
      rfl
    exact absurd h2 (by simp)

/-- C6 amended: a series with exactly two echoes of matching shapes fails with
the fatal insufficient-echoes error; a multi-echo series with mismatching raw
image shapes fails with the fatal shape-mismatch error, whose diagnostic names
every echo file (in particular every mismatching one) with its shape. -/
theorem multiecho_validation_errors (series : List EchoFile) (fid : Option String)
    (stc : Bool) :
    ((series.insertionSort (fun a b => a.echoTime ≤ b.echoTime)).length = 2 →
      ((series.insertionSort (fun a b => a.echoTime ≤ b.echoTime)).map
        EchoFile.shape).dedup.length = 1 →
      init_bold_native_wf series fid stc = .error .insufficientEchoes) ∧
    (1 < (series.insertionSort (fun a b => a.echoTime ≤ b.echoTime)).length →
      ((series.insertionSort (fun a b => a.echoTime ≤ b.echoTime)).map
        EchoFile.shape).dedup.length ≠ 1 →
      init_bold_native_wf series fid stc =
        .error (.shapeMismatch ((series.insertionSort (fun a b => a.echoTime ≤ b.echoTime)).map
          (fun e => (e.path, e.shape)))) ∧
      ∀ e ∈ series, (e.path, e.shape) ∈
        (series.insertionSort (fun a b => a.echoTime ≤ b.echoTime)).map
          (fun e => (e.path, e.shape))) := by
  constructor
  · intro h2 hmatch
    have h2' : series.length = 2 := by simpa using h2
    simp only [init_bold_native_wf]
    split
    · next hcond => simp [h2', hmatch] at hcond
    · split
      · rfl
      · next hcond => exact absurd (by simp [h2', hmatch, List.length_map]) hcond
  · intro h1 hmis
    have h1' : 1 < series.length := by simpa using h1
    constructor
    · simp only [init_bold_native_wf]
      split
      · rfl
      · next hcond => exact absurd (by simp [h1', hmis]) hcond
    · intro e he
      exact List.mem_map_of_mem _
        (((List.perm_insertionSort (fun a b => a.echoTime ≤ b.echoTime) series).mem_iff).mpr he)

/-- C6 amended witness: two matching echoes give the insufficient-echoes
error; three echoes with one mismatching shape give the shape-mismatch error
naming all three files. -/
theorem multiecho_validation_errors_witness :
    init_bold_native_wf [⟨"a", 1, [2, 2]⟩, ⟨"b", 2, [2, 2]⟩] none false =
      .error .insufficientEchoes ∧
    init_bold_native_wf [⟨"a", 1, [2, 2]⟩, ⟨"b", 2, [3, 3]⟩, ⟨"c", 3, [2, 2]⟩] none false =
      .error (.shapeMismatch [("a", [2, 2]), ("b", [3, 3]), ("c", [2, 2])]) := by
  have h1 := (multiecho_validation_errors [⟨"a", 1, [2, 2]⟩, ⟨"b", 2, [2, 2]⟩] none false).1
    (by decide) (by decide)
  have h2 := (multiecho_validation_errors
    [⟨"a", 1, [2, 2]⟩, ⟨"b", 2, [3, 3]⟩, ⟨"c", 3, [2, 2]⟩] none false).2
    (by decide) (by decide)
  exact ⟨h1, h2.1.trans (by rfl)⟩

/-- C8: in the native workflow graph, motion transforms are not wired to the
graph-level `motion_xfm` output for a multi-echo series, and are forwarded
from the input for a single-echo series. -/
theorem motion_xfm_propagation (series : List EchoFile) (fid : Option String)
    (stc : Bool) (g : Graph)
    (h : init_bold_native_wf series fid stc = .ok g) :
    (1 < (series.insertionSort (fun a b => a.echoTime ≤ b.echoTime)).length →
      g.findEdgeInto "outputnode" "motion_xfm" = none) ∧
    ((series.insertionSort (fun a b => a.echoTime ≤ b.echoTime)).length ≤ 1 →
      g.findEdgeInto "outputnode" "motion_xfm" =
        some ⟨"inputnode", "motion_xfm", "outputnode", "motion_xfm"⟩) := by
  simp only [init_bold_native_wf] at h
  split at h
  · exact Except.noConfusion h
  · split at h
    · exact Except.noConfusion h
    · injection h with h'
      subst h'
      constructor
      · intro hlen
        have hlen' : (series.insertionSort (fun a b => a.echoTime ≤ b.echoTime)).length > 1 :=
          hlen
        rw [if_pos hlen']
        cases stc <;> cases fid <;> rfl
      · intro hlen
        have hlen' : ¬(series.insertionSort (fun a b => a.echoTime ≤ b.echoTime)).length > 1 :=
          Nat.not_lt.mpr hlen
        rw [if_neg hlen']
        cases stc <;> cases fid <;> rfl

/-- C8 witness: three matching echoes leave `motion_xfm` unwired; a single
echo forwards it from the input node. -/
theorem motion_xfm_propagation_witness :
    (init_bold_native_wf [⟨"a", 1, [2, 2]⟩, ⟨"b", 2, [2, 2]⟩, ⟨"c", 3, [2, 2]⟩] none
        false).toOption.map
      (fun g => g.findEdgeInto "outputnode" "motion_xfm") = some none ∧
    (init_bold_native_wf [⟨"a", 1, [2, 2]⟩] none false).toOption.map
      (fun g => g.findEdgeInto "outputnode" "motion_xfm") =
        some (some ⟨"inputnode", "motion_xfm", "outputnode", "motion_xfm"⟩) := by
  have h1 := (motion_xfm_propagation [⟨"a", 1, [2, 2]⟩, ⟨"b", 2, [2, 2]⟩, ⟨"c", 3, [2, 2]⟩]
    none false _ rfl).1 (by decide)
  have h2 := (motion_xfm_propagation [⟨"a", 1, [2, 2]⟩] none false _ rfl).2 (by decide)
  constructor
  · rw [← h1]
    rfl
  · rw [← h2]
    rfl

/-! ## Claim theorems: cache reuse in `init_bold_fit_wf` (C1) -/

set_option maxHeartbeats 1600000 in
/-- Cached `hmc_boldref`: Stage 1 is omitted and the output is the cached value. -/
theorem fit_cached_hmc_boldref (bq sq : List (String × Nat)) (o2 o3 o4 o5 : Option String)
    (fid : Option String) (a : String) :
    ("hmc_boldref_wf" ∉ (init_bold_fit_wf bq sq ⟨some a, o2, o3, o4, o5⟩ fid).nodes ∧
      "ds_hmc_boldref_wf" ∉ (init_bold_fit_wf bq sq ⟨some a, o2, o3, o4, o5⟩ fid).nodes) ∧
    (init_bold_fit_wf bq sq ⟨some a, o2, o3, o4, o5⟩ fid).resolveOutput "hmc_boldref" =
      .cached (.file a) := by
  cases o2 <;> cases o3 <;> cases o4 <;> cases o5 <;> cases fid <;>
    refine ⟨⟨notMemOfContainsFalse ?_, notMemOfContainsFalse ?_⟩, ?_⟩ <;> rfl

set_option maxHeartbeats 1600000 in
/-- Cached `transforms.hmc`: Stage 2 is omitted and `motion_xfm` is the cached
value. -/
theorem fit_cached_hmc_xforms (bq sq : List (String × Nat)) (o1 o2 o4 o5 : Option String)
    (fid : Option String) (a : String) :
    ("bold_hmc_wf" ∉ (init_bold_fit_wf bq sq ⟨o1, o2, some a, o4, o5⟩ fid).nodes ∧
      "ds_hmc_wf" ∉ (init_bold_fit_wf bq sq ⟨o1, o2, some a, o4, o5⟩ fid).nodes) ∧
    (init_bold_fit_wf bq sq ⟨o1, o2, some a, o4, o5⟩ fid).resolveOutput "motion_xfm" =
      .cached (.file a) := by
  cases o1 <;> cases o2 <;> cases o4 <;> cases o5 <;> cases fid <;>
    refine ⟨⟨notMemOfContainsFalse ?_, notMemOfContainsFalse ?_⟩, ?_⟩ <;> rfl

set_option maxHeartbeats 1600000 in
/-- Cached `coreg_boldref`: Stage 3 (enhancement, datasink, fieldmap
registration and unwarp) is omitted and `coreg_boldref` is the cached value. -/
theorem fit_cached_coreg_boldref (bq sq : List (String × Nat)) (o1 o3 o4 o5 : Option String)
    (fid : Option String) (a : String) :
    ("enhance_boldref_wf" ∉ (init_bold_fit_wf bq sq ⟨o1, some a, o3, o4, o5⟩ fid).nodes ∧
      "ds_coreg_boldref_wf" ∉ (init_bold_fit_wf bq sq ⟨o1, some a, o3, o4, o5⟩ fid).nodes ∧
      "fmapreg_wf" ∉ (init_bold_fit_wf bq sq ⟨o1, some a, o3, o4, o5⟩ fid).nodes ∧
      "unwarp_wf" ∉ (init_bold_fit_wf bq sq ⟨o1, some a, o3, o4, o5⟩ fid).nodes) ∧
    (init_bold_fit_wf bq sq ⟨o1, some a, o3, o4, o5⟩ fid).resolveOutput "coreg_boldref" =
      .cached (.file a) := by
  cases o1 <;> cases o3 <;> cases o4 <;> cases o5 <;> cases fid <;>
    refine ⟨⟨notMemOfContainsFalse ?_, notMemOfContainsFalse ?_, notMemOfContainsFalse ?_,
      notMemOfContainsFalse ?_⟩, ?_⟩ <;> rfl

set_option maxHeartbeats 1600000 in
/-- Cached `transforms.boldref2anat`: Stage 4 is omitted and the output is the
cached value. -/
theorem fit_cached_boldref2anat (bq sq : List (String × Nat)) (o1 o2 o3 o4 : Option String)
    (fid : Option String) (a : String) :
    ("bold_reg_wf" ∉ (init_bold_fit_wf bq sq ⟨o1, o2, o3, o4, some a⟩ fid).nodes ∧
      "ds_boldreg_wf" ∉ (init_bold_fit_wf bq sq ⟨o1, o2, o3, o4, some a⟩ fid).nodes) ∧
    (init_bold_fit_wf bq sq ⟨o1, o2, o3, o4, some a⟩ fid).resolveOutput "boldref2anat_xfm" =
      .cached (.file a) := by
  cases o1 <;> cases o2 <;> cases o3 <;> cases o4 <;> cases fid <;>
    refine ⟨⟨notMemOfContainsFalse ?_, notMemOfContainsFalse ?_⟩, ?_⟩ <;> rfl

/-- C1: for every series and every cached slot among `hmc_boldref`,
`transforms.hmc`, `coreg_boldref` and `transforms.boldref2anat`, the producing
stage group is omitted from the assembled graph and the corresponding
graph-level output port resolves to the cached artifact unchanged. -/
theorem bold_fit_cache_reuse (bq sq : List (String × Nat)) (pre : Precomputed)
    (fid : Option String) :
    (∀ a, pre.hmc_boldref = some a →
      ("hmc_boldref_wf" ∉ (init_bold_fit_wf bq sq pre fid).nodes ∧
        "ds_hmc_boldref_wf" ∉ (init_bold_fit_wf bq sq pre fid).nodes) ∧
      (init_bold_fit_wf bq sq pre fid).resolveOutput "hmc_boldref" = .cached (.file a)) ∧
    (∀ a, pre.hmc = some a →
      ("bold_hmc_wf" ∉ (init_bold_fit_wf bq sq pre fid).nodes ∧
        "ds_hmc_wf" ∉ (init_bold_fit_wf bq sq pre fid).nodes) ∧
      (init_bold_fit_wf bq sq pre fid).resolveOutput "motion_xfm" = .cached (.file a)) ∧
    (∀ a, pre.coreg_boldref = some a →
      ("enhance_boldref_wf" ∉ (init_bold_fit_wf bq sq pre fid).nodes ∧
        "ds_coreg_boldref_wf" ∉ (init_bold_fit_wf bq sq pre fid).nodes ∧
        "fmapreg_wf" ∉ (init_bold_fit_wf bq sq pre fid).nodes ∧
        "unwarp_wf" ∉ (init_bold_fit_wf bq sq pre fid).nodes) ∧
      (init_bold_fit_wf bq sq pre fid).resolveOutput "coreg_boldref" = .cached (.file a)) ∧
    (∀ a, pre.boldref2anat = some a →
      ("bold_reg_wf" ∉ (init_bold_fit_wf bq sq pre fid).nodes ∧
        "ds_boldreg_wf" ∉ (init_bold_fit_wf bq sq pre fid).nodes) ∧
      (init_bold_fit_wf bq sq pre fid).resolveOutput "boldref2anat_xfm" = .cached (.file a)) := by
  obtain ⟨o1, o2, o3, o4, o5⟩ := pre
  refine ⟨fun a ha => ?_, fun a ha => ?_, fun a ha => ?_, fun a ha => ?_⟩
  · cases o1 with
    | none => exact Option.noConfusion ha
    | some v =>
      obtain rfl : v = a := Option.some.inj ha
      exact fit_cached_hmc_boldref bq sq o2 o3 o4 o5 fid v
  · cases o3 with
    | none => exact Option.noConfusion ha
    | some v =>
      obtain rfl : v = a := Option.some.inj ha
      exact fit_cached_hmc_xforms bq sq o1 o2 o4 o5 fid v
  · cases o2 with
    | none => exact Option.noConfusion ha
    | some v =>
      obtain rfl : v = a := Option.some.inj ha
      exact fit_cached_coreg_boldref bq sq o1 o3 o4 o5 fid v
  · cases o5 with
    | none => exact Option.noConfusion ha
    | some v =>
      obtain rfl : v = a := Option.some.inj ha
      exact fit_cached_boldref2anat bq sq o1 o2 o3 o4 fid v

/-- C1 witness: with every slot cached, each producing stage group is absent
and every output port resolves to its cached artifact. -/
theorem bold_fit_cache_reuse_witness :
    (("hmc_boldref_wf" ∉ (init_bold_fit_wf [("b", 1)] []
        ⟨some "A", some "B", some "C", some "D", some "E"⟩ none).nodes ∧
      "ds_hmc_boldref_wf" ∉ (init_bold_fit_wf [("b", 1)] []
        ⟨some "A", some "B", some "C", some "D", some "E"⟩ none).nodes) ∧
      (init_bold_fit_wf [("b", 1)] []
        ⟨some "A", some "B", some "C", some "D", some "E"⟩ none).resolveOutput "hmc_boldref" =
        .cached (.file "A")) ∧
    (("bold_hmc_wf" ∉ (init_bold_fit_wf [("b", 1)] []
        ⟨some "A", some "B", some "C", some "D", some "E"⟩ none).nodes ∧
      "ds_hmc_wf" ∉ (init_bold_fit_wf [("b", 1)] []
        ⟨some "A", some "B", some "C", some "D", some "E"⟩ none).nodes) ∧
      (init_bold_fit_wf [("b", 1)] []
        ⟨some "A", some "B", some "C", some "D", some "E"⟩ none).resolveOutput "motion_xfm" =
        .cached (.file "C")) ∧
    (("enhance_boldref_wf" ∉ (init_bold_fit_wf [("b", 1)] []
        ⟨some "A", some "B", some "C", some "D", some "E"⟩ none).nodes ∧
      "ds_coreg_boldref_wf" ∉ (init_bold_fit_wf [("b", 1)] []
        ⟨some "A", some "B", some "C", some "D", some "E"⟩ none).nodes ∧
      "fmapreg_wf" ∉ (init_bold_fit_wf [("b", 1)] []
        ⟨some "A", some "B", some "C", some "D", some "E"⟩ none).nodes ∧
      "unwarp_wf" ∉ (init_bold_fit_wf [("b", 1)] []
        ⟨some "A", some "B", some "C", some "D", some "E"⟩ none).nodes) ∧
      (init_bold_fit_wf [("b", 1)] []
        ⟨some "A", some "B", some "C", some "D", some "E"⟩ none).resolveOutput "coreg_boldref" =
        .cached (.file "B")) ∧
    (("bold_reg_wf" ∉ (init_bold_fit_wf [("b", 1)] []
        ⟨some "A", some "B", some "C", some "D", some "E"⟩ none).nodes ∧
      "ds_boldreg_wf" ∉ (init_bold_fit_wf [("b", 1)] []
        ⟨some "A", some "B", some "C", some "D", some "E"⟩ none).nodes) ∧
      (init_bold_fit_wf [("b", 1)] []
        ⟨some "A", some "B", some "C", some "D", some "E"⟩ none).resolveOutput
          "boldref2anat_xfm" = .cached (.file "E")) := by
  obtain ⟨h1, h2, h3, h4⟩ := bold_fit_cache_reuse [("b", 1)] []
    ⟨some "A", some "B", some "C", some "D", some "E"⟩ none
  exact ⟨h1 "A" rfl, h2 "C" rfl, h3 "B" rfl, h4 "E" rfl⟩

/-! ## Claim theorems: fieldmap branch, root node, sbref preference (C7, C9, C10) -/

set_option maxHeartbeats 1600000 in
/-- With an estimator assigned, `coreg_boldref` uncached and `boldref2fmap`
uncached, the registration sub-branch is present and unwarp feeds the
coregistration reference. -/
theorem fit_fmapreg_uncached (bq sq : List (String × Nat)) (o1 o3 o5 : Option String)
    (fidv : String) :
    "fmapreg_wf" ∈ (init_bold_fit_wf bq sq ⟨o1, none, o3, none, o5⟩ (some fidv)).nodes ∧
    (⟨"unwarp_wf", "outputnode.corrected", "ds_coreg_boldref_wf", "inputnode.boldref"⟩ : Edge) ∈
      (init_bold_fit_wf bq sq ⟨o1, none, o3, none, o5⟩ (some fidv)).edges ∧
    (⟨"ds_coreg_boldref_wf", "outputnode.boldref", "regref_buffer", "boldref"⟩ : Edge) ∈
      (init_bold_fit_wf bq sq ⟨o1, none, o3, none, o5⟩ (some fidv)).edges := by
  cases o1 <;> cases o3 <;> cases o5 <;>
    refine ⟨memOfContainsTrue ?_, memOfContainsTrue ?_, memOfContainsTrue ?_⟩ <;> rfl

set_option maxHeartbeats 1600000 in
/-- With an estimator assigned, `coreg_boldref` uncached and `boldref2fmap`
cached, the registration sub-branch is absent, the cached transform is wired
into `fmapreg_buffer`, and unwarp still feeds the coregistration reference. -/
theorem fit_fmapreg_cached (bq sq : List (String × Nat)) (o1 o3 o5 : Option String)
    (fidv a : String) :
    "fmapreg_wf" ∉ (init_bold_fit_wf bq sq ⟨o1, none, o3, some a, o5⟩ (some fidv)).nodes ∧
    (init_bold_fit_wf bq sq ⟨o1, none, o3, some a, o5⟩ (some fidv)).findInput
      "fmapreg_buffer" "boldref2fmap_xfm" = some (.file a) ∧
    (⟨"unwarp_wf", "outputnode.corrected", "ds_coreg_boldref_wf", "inputnode.boldref"⟩ : Edge) ∈
      (init_bold_fit_wf bq sq ⟨o1, none, o3, some a, o5⟩ (some fidv)).edges ∧
    (⟨"ds_coreg_boldref_wf", "outputnode.boldref", "regref_buffer", "boldref"⟩ : Edge) ∈
      (init_bold_fit_wf bq sq ⟨o1, none, o3, some a, o5⟩ (some fidv)).edges := by
  cases o1 <;> cases o3 <;> cases o5 <;>
    refine ⟨notMemOfContainsFalse ?_, ?_, memOfContainsTrue ?_, memOfContainsTrue ?_⟩ <;> rfl

/-- C7: when an estimator id is assigned and `coreg_boldref` is not cached,
the registration-to-correction-space sub-branch is in the graph iff the
`boldref2fmap` transform is not cached (when cached, the cached transform is
wired into the registration buffer instead), and in both cases the unwarp
stage's corrected output feeds the coregistration-reference datasink, whose
output is the coregistration reference. -/
theorem coreg_fieldmap_branch (bq sq : List (String × Nat)) (pre : Precomputed)
    (fidv : String) (hcoreg : pre.coreg_boldref = none) :
    ("fmapreg_wf" ∈ (init_bold_fit_wf bq sq pre (some fidv)).nodes ↔
      pre.boldref2fmap = none) ∧
    (∀ a, pre.boldref2fmap = some a →
      (init_bold_fit_wf bq sq pre (some fidv)).findInput "fmapreg_buffer" "boldref2fmap_xfm" =
        some (.file a)) ∧
    (⟨"unwarp_wf", "outputnode.corrected", "ds_coreg_boldref_wf", "inputnode.boldref"⟩ : Edge) ∈
      (init_bold_fit_wf bq sq pre (some fidv)).edges ∧
    (⟨"ds_coreg_boldref_wf", "outputnode.boldref", "regref_buffer", "boldref"⟩ : Edge) ∈
      (init_bold_fit_wf bq sq pre (some fidv)).edges := by
  obtain ⟨o1, o2, o3, o4, o5⟩ := pre
  obtain rfl : o2 = none := hcoreg
  cases o4 with
  | none =>
    obtain ⟨hm, he1, he2⟩ := fit_fmapreg_uncached bq sq o1 o3 o5 fidv
    exact ⟨iff_of_true hm rfl, fun a ha => Option.noConfusion ha, he1, he2⟩
  | some v =>
    obtain ⟨hm, hi, he1, he2⟩ := fit_fmapreg_cached bq sq o1 o3 o5 fidv v
    refine ⟨iff_of_false hm (by simp), fun a ha => ?_, he1, he2⟩
    obtain rfl : v = a := Option.some.inj ha
    exact hi

/-- C7 witness: with nothing cached the registration sub-branch is present;
with the `boldref2fmap` transform cached it is absent and the cached value is
wired in; unwarp feeds the reference datasink in both cases. -/
theorem coreg_fieldmap_branch_witness :
    "fmapreg_wf" ∈ (init_bold_fit_wf [("b", 1)] []
      ⟨none, none, none, none, none⟩ (some "fm")).nodes ∧
    (init_bold_fit_wf [("b", 1)] [] ⟨none, none, none, some "D", none⟩
      (some "fm")).findInput "fmapreg_buffer" "boldref2fmap_xfm" = some (.file "D") ∧
    "fmapreg_wf" ∉ (init_bold_fit_wf [("b", 1)] []
      ⟨none, none, none, some "D", none⟩ (some "fm")).nodes ∧
    (⟨"unwarp_wf", "outputnode.corrected", "ds_coreg_boldref_wf", "inputnode.boldref"⟩ : Edge) ∈
      (init_bold_fit_wf [("b", 1)] [] ⟨none, none, none, none, none⟩ (some "fm")).edges := by
  have h1 := coreg_fieldmap_branch [("b", 1)] [] ⟨none, none, none, none, none⟩ "fm" rfl
  have h2 := coreg_fieldmap_branch [("b", 1)] [] ⟨none, none, none, some "D", none⟩ "fm" rfl
  exact ⟨h1.1.mpr rfl, h2.2.1 "D" rfl, fun hm => by simpa using h2.1.mp hm, h1.2.2.1⟩

/-- C9: for every combination of cached slots, the assembled graph contains
the explicitly added `inputnode` root, and the summary-reporting workflow is
wired from it unconditionally. -/
theorem fit_graph_root_node (bq sq : List (String × Nat)) (pre : Precomputed)
    (fid : Option String) :
    "inputnode" ∈ (init_bold_fit_wf bq sq pre fid).nodes ∧
    (⟨"inputnode", "bold_file", "func_fit_reports_wf", "inputnode.source_file"⟩ : Edge) ∈
      (init_bold_fit_wf bq sq pre fid).edges := by
  constructor
  · have h : ("inputnode" : String) ∈ (init_bold_fit_wf bq sq pre fid).explicitNodes := by
      show ("inputnode" : String) ∈ ["inputnode"]
      exact List.mem_singleton.mpr rfl
    exact List.mem_append_left _ (List.mem_append_left _ h)
  · have h : (⟨"inputnode", "bold_file", "func_fit_reports_wf",
        "inputnode.source_file"⟩ : Edge) ∈ fitBaseEdges := by decide
    exact List.mem_append_left _ (List.mem_append_left _ (List.mem_append_left _
      (List.mem_append_left _ h)))

instance : IsTotal (String × Nat) (fun a b => a.2 ≤ b.2) :=
  ⟨fun a b => Nat.le_total a.2 b.2⟩

instance : IsTrans (String × Nat) (fun a b => a.2 ≤ b.2) :=
  ⟨fun _ _ _ h1 h2 => Nat.le_trans h1 h2⟩

set_option maxHeartbeats 1600000 in
/-- C10: when the coregistration reference is being built, the contrast
enhancement input comes from the reference-selection buffer, whose static
`sbref_files` input is the echo-time-sorted sbref list and whose `boldref`
input is the HMC boldref; the selection function returns the first sbref
whenever any sbref exists and falls back to the boldref only when none does,
and the sbref list is sorted by ascending echo time. -/
theorem sbref_preference (bq sq : List (String × Nat)) (pre : Precomputed)
    (fid : Option String) (hcoreg : pre.coreg_boldref = none) :
    (init_bold_fit_wf bq sq pre fid).findEdgeInto "enhance_boldref_wf" "inputnode.in_file" =
      some ⟨"fmapref_buffer", "out", "enhance_boldref_wf", "inputnode.in_file"⟩ ∧
    (init_bold_fit_wf bq sq pre fid).findInput "fmapref_buffer" "sbref_files" =
      some (.files (get_sbrefs sq)) ∧
    (init_bold_fit_wf bq sq pre fid).findEdgeInto "fmapref_buffer" "boldref_files" =
      some ⟨"hmcref_buffer", "boldref", "fmapref_buffer", "boldref_files"⟩ ∧
    (∀ sbref_files boldref_files : List String, sbref_files ≠ [] →
      _select_ref sbref_files boldref_files = sbref_files.head?) ∧
    (∀ boldref_files : List String, _select_ref [] boldref_files = boldref_files.head?) ∧
    get_sbrefs sq = (sq.insertionSort (fun a b => a.2 ≤ b.2)).map Prod.fst ∧
    (sq.insertionSort (fun a b => a.2 ≤ b.2)).Pairwise (fun a b => a.2 ≤ b.2) := by
  obtain ⟨o1, o2, o3, o4, o5⟩ := pre
  obtain rfl : o2 = none := hcoreg
  have hwiring :
      (init_bold_fit_wf bq sq ⟨o1, none, o3, o4, o5⟩ fid).findEdgeInto
        "enhance_boldref_wf" "inputnode.in_file" =
        some ⟨"fmapref_buffer", "out", "enhance_boldref_wf", "inputnode.in_file"⟩ ∧
      (init_bold_fit_wf bq sq ⟨o1, none, o3, o4, o5⟩ fid).findInput
        "fmapref_buffer" "sbref_files" = some (.files (get_sbrefs sq)) ∧
      (init_bold_fit_wf bq sq ⟨o1, none, o3, o4, o5⟩ fid).findEdgeInto
        "fmapref_buffer" "boldref_files" =
        some ⟨"hmcref_buffer", "boldref", "fmapref_buffer", "boldref_files"⟩ := by
    cases o1 <;> cases o3 <;> cases o4 <;> cases o5 <;> cases fid <;>
      refine ⟨?_, ?_, ?_⟩ <;> rfl
  refine ⟨hwiring.1, hwiring.2.1, hwiring.2.2, ?_, fun br => rfl, rfl, ?_⟩
  · intro sb br hne
    unfold _select_ref
    rw [if_neg (by simpa [List.isEmpty_iff] using hne)]
  · exact List.sorted_insertionSort (fun a b => a.2 ≤ b.2) sq

/-- C10 witness: with sbrefs present the selection input is the sorted sbref
list and the selection yields the first sbref; with no sbref it yields the
boldref. -/
theorem sbref_preference_witness :
    (init_bold_fit_wf [("b", 1)] [("s2", 7), ("s1", 3)] ⟨none, none, none, none, none⟩
      none).findInput "fmapref_buffer" "sbref_files" = some (.files ["s1", "s2"]) ∧
    _select_ref ["s1", "s2"] ["hmcref"] = some "s1" ∧
    _select_ref [] ["hmcref"] = some "hmcref" := by
  have h := sbref_preference [("b", 1)] [("s2", 7), ("s1", 3)]
    ⟨none, none, none, none, none⟩ none rfl
  refine ⟨h.2.1.trans (by rfl), ?_, (h.2.2.2.2.1 ["hmcref"]).trans (by rfl)⟩
  exact (h.2.2.2.1 ["s1", "s2"] ["hmcref"] (by decide)).trans (by rfl)

end FMRIPrep
